import Mathlib

/-!
Verification of the `kb3` Python extraction-wrapper scripts
(`crawl4ai_wrapper.py`, `docling_wrapper.py`, `deepdoctection_wrapper.py`,
`deepdoctection_wrapper_v2.py`) against their natural-language specification.

Modelling conventions, used uniformly below:

* Each wrapper is embedded as a pure Lean function over an explicit
  environment record.  The environment carries, as oracle functions, the
  behaviour of the external collaborators the wrapper invokes (HTTP client,
  backend libraries, temp-file naming, base64 decoding): any exception such a
  call can raise is modelled as an `Except.error` carrying the exception
  message, and module availability flags (`DEEPDOCTECTION_AVAILABLE`,
  `CRAWL4AI_AVAILABLE`, `DOCLING_AVAILABLE`) are booleans in the environment.
* Python dictionaries returned by the wrappers become structures; a key that a
  given `return` statement does not set is modelled by the field's default
  value (`none`, `[]`, `false`, `""`).
* Attribute access on backend objects via `getattr(x, 'f', default)` or
  `hasattr` checks becomes an `Option` field, `none` meaning the attribute is
  absent (or falsy where the source tests truthiness).
* File-system effects are tracked in a log structure listing the temporary
  files created, the paths passed to `os.unlink`, and the paths handed to the
  backend, so that frame conditions about temporary files are statements
  about the log.  `unlinked` records the unlink calls made (the sources wrap
  some of them in `try/except pass`; an unlink of an existing temp file
  succeeds, which is the situation the claims quantify over).
* Ambient process state read by the wrappers (the wall clock consulted by
  `datetime.now()`) is an explicit `Amb` record passed to the functions that
  run inside the wrapper process; the translation shows which of them
  actually read it.
* `traceback` entries in the result dictionaries are pure diagnostics derived
  from the raised exception and are not modelled.
* Python string operations are modelled on the character lists of `String`:
  `in` is contiguous-infix, `startswith`/`endswith` are prefix/suffix tests,
  `lower()` maps `Char.toLower`.
-/

/-! ## Python string primitives -/

/-- Python `pat in s` (contiguous substring test). -/
def strContains (s pat : String) : Bool := decide (pat.data <:+: s.data)

/-- Python `s.startswith(pat)`. -/
def pyStartsWith (s pat : String) : Bool := decide (pat.data <+: s.data)

/-- Python `s.endswith(pat)`. -/
def pyEndsWith (s pat : String) : Bool := decide (pat.data <:+ s.data)

/-- Python `s.lower()` (ASCII case folding, as used on the URLs here). -/
def pyLower (s : String) : String := ⟨s.data.map Char.toLower⟩

/-- Python `s[:n]` character truncation. -/
def pyTake (s : String) (n : Nat) : String := ⟨s.data.take n⟩

def splitOnCharAux (c : Char) : List Char → List Char → List String
  | acc, [] => [⟨acc.reverse⟩]
  | acc, x :: xs =>
    if x = c then ⟨acc.reverse⟩ :: splitOnCharAux c [] xs
    else splitOnCharAux c (x :: acc) xs

/-- Python `s.split(c)` for a single separator character. -/
def splitOnChar (s : String) (c : Char) : List String := splitOnCharAux c [] s.data

/-- Python `s.replace(c, r)` for a single-character pattern. -/
def replaceCharStr (s : String) (c : Char) (r : String) : String :=
  ⟨(s.data.map (fun x => if x = c then r.data else [x])).flatten⟩

def splitWsAux : List Char → List Char → List String
  | acc, [] => [⟨acc.reverse⟩]
  | acc, x :: xs =>
    if x.isWhitespace then ⟨acc.reverse⟩ :: splitWsAux [] xs
    else splitWsAux (x :: acc) xs

/-- Python `len(s.split())`: number of maximal non-whitespace runs. -/
def pyWordCount (s : String) : Nat :=
  ((splitWsAux [] s.data).filter (fun t => t ≠ "")).length

/-- Python `s.encode('utf-8')`. -/
def utf8Bytes (s : String) : List Nat := s.toUTF8.toList.map (fun b => b.toNat)

/-- Python truthiness of a string. -/
def strTruthy (s : String) : Bool := decide (s ≠ "")

theorem string_data_append (p x : String) : (p ++ x).data = p.data ++ x.data := by
  cases p; cases x; rfl

/-- A string with a non-empty prefix is non-empty. -/
theorem prefixed_ne_empty (p x : String) (hp : p.data ≠ []) : p ++ x ≠ "" := by
  intro h
  apply hp
  have hd : p.data ++ x.data = ([] : List Char) := by
    have hc := congrArg String.data h
    rwa [string_data_append] at hc
  exact (List.append_eq_nil.mp hd).1

/-- A suffix occurrence is in particular a substring occurrence. -/
theorem strContains_of_pyEndsWith (s pat : String) (h : pyEndsWith s pat = true) :
    strContains s pat = true := by
  unfold pyEndsWith at h
  unfold strContains
  exact decide_eq_true (List.IsSuffix.isInfix (of_decide_eq_true h))

/-! ## Base64 encoding (`base64.b64encode(...).decode('utf-8')`) -/

def b64alphabet : List Char :=
  "ABCDEFGHIJKLMNOPQRSTUVWXYZabcdefghijklmnopqrstuvwxyz0123456789+/".data

def b64char (n : Nat) : Char := b64alphabet.getD n '='

def b64chunk : List Nat → List Char
  | [b0, b1, b2] =>
    [b64char (b0 / 4), b64char (b0 % 4 * 16 + b1 / 16),
     b64char (b1 % 16 * 4 + b2 / 64), b64char (b2 % 64)]
  | [b0, b1] =>
    [b64char (b0 / 4), b64char (b0 % 4 * 16 + b1 / 16), b64char (b1 % 16 * 4), '=']
  | [b0] => [b64char (b0 / 4), b64char (b0 % 4 * 16), '=', '=']
  | _ => []

def b64encodeList : List Nat → List Char
  | b0 :: b1 :: b2 :: rest => b64chunk [b0, b1, b2] ++ b64encodeList rest
  | rest => b64chunk rest

/-- Standard base64 of a byte list, as a string. -/
def b64encode (bs : List Nat) : String := ⟨b64encodeList bs⟩

/-! ## Ambient process state -/

/-- Ambient state readable by code running in a wrapper process: the wall
clock, read by `datetime.now().isoformat()`. -/
structure Amb where
  now : String

/-! ## DeepDoctection wrapper (`deepdoctection_wrapper.py`) -/

/-- Request configuration for `DeepDoctectionWrapper.process_document`.  The
configuration is an open JSON dictionary, so a request may carry any further
keys — in particular an explicit content-type hint — whether or not the
wrapper reads them. -/
structure DDOptions where
  /-- An explicit content-type hint a caller may place in the request.  The
  deepdoctection wrapper never reads it. -/
  document_type : Option String := none
deriving Repr, DecidableEq

structure DDConfig where
  document_url : Option String := none
  options : DDOptions := {}
deriving Repr, DecidableEq

/-- A cell as extracted by `_extract_page_info` (`getattr` defaults). -/
structure DDCell where
  text : String := ""
  row : Nat := 0
  col : Nat := 0
deriving Repr, DecidableEq

structure DDTable where
  rows : List DDCell := []
  columns : Nat := 0
  bbox : Option String := none
deriving Repr, DecidableEq

structure DDFigure where
  caption : String := ""
  bbox : Option String := none
deriving Repr, DecidableEq

structure DDLayoutElem where
  type : String := "unknown"
  text : String := ""
  bbox : Option String := none
deriving Repr, DecidableEq

/-- One entry of `analysis_results`, as built by `_extract_page_info`. -/
structure DDPageInfo where
  page_number : Nat
  text : String := ""
  tables : List DDTable := []
  figures : List DDFigure := []
  layout_elements : List DDLayoutElem := []
deriving Repr, DecidableEq

/-- `document` sub-dictionary of a deepdoctection result. -/
structure DDDocument where
  text : String := ""
  markdown : String := ""
  pages : Nat := 0
  format : String := ""
deriving Repr, DecidableEq

/-- `metadata` sub-dictionary.  The source never writes a `degraded` key, so
the field holds its default `false` in every result the wrapper builds. -/
structure DDMetadata where
  title : String := ""
  analyzer : String := ""
  page_count : Option Nat := none
  table_count : Option Nat := none
  figure_count : Option Nat := none
  degraded : Bool := false
deriving Repr, DecidableEq

/-- Result dictionary of the deepdoctection wrapper. -/
structure DDResult where
  success : Bool
  error : Option String := none
  mock : Bool := false
  document : Option DDDocument := none
  metadata : Option DDMetadata := none
  tables : List DDTable := []
  figures : List DDFigure := []
  pages_info : List DDPageInfo := []
deriving Repr, DecidableEq

/-- File-system / backend-call log of one invocation. -/
structure DDLog where
  created : List String := []
  unlinked : List String := []
  analyzed : List String := []
deriving Repr, DecidableEq

/-- A raw page object yielded by `analyzer.analyze`, reduced to the
attributes `_extract_page_info` probes. -/
structure DDRawCell where
  text : Option String := none
  row_idx : Option Nat := none
  col_idx : Option Nat := none
deriving Repr, DecidableEq

structure DDRawTable where
  column_count : Option Nat := none
  bbox : Option String := none
  cells : Option (List DDRawCell) := none
deriving Repr, DecidableEq

structure DDRawImage where
  caption : Option String := none
  bbox : Option String := none
deriving Repr, DecidableEq

structure DDRawLayout where
  category_name : Option String := none
  text : Option String := none
  bbox : Option String := none
deriving Repr, DecidableEq

structure DDRawPage where
  text : Option String := none
  tables : Option (List DDRawTable) := none
  images : Option (List DDRawImage) := none
  layouts : Option (List DDRawLayout) := none
deriving Repr, DecidableEq

/-- Outcome of running `analyzer.analyze(dataset_dataflow=df)` over the
document at a path: a page stream, or an exception with a message.  An
analyzer that `_create_analyzer` returned as `None` raises here too
(`AttributeError`), which this constructor also covers. -/
inductive DDAnalyzeOutcome where
  | pages (ps : List DDRawPage)
  | raiseMsg (msg : String)

/-- `requests.get` response, reduced to what the wrapper reads. -/
structure HttpResp where
  contentType : String := ""
  text : String := ""

/-- Environment of one deepdoctection wrapper invocation. -/
structure DDEnv where
  /-- `DEEPDOCTECTION_AVAILABLE`. -/
  available : Bool
  /-- `IMPORT_ERROR` (meaningful when `available = false`). -/
  importError : String := ""
  /-- `requests.get(url, timeout=10)` in the fallback; `Except.error` is any
  raised exception. -/
  httpGet10 : String → Except String HttpResp := fun _ => .error "unreachable"
  /-- `requests.get(url, timeout=30)` in `_download_document`, with
  `raise_for_status` folded in. -/
  httpGet30 : String → Except String HttpResp := fun _ => .error "unreachable"
  /-- Text extraction performed by the stdlib-`HTMLParser` `TextExtractor`
  (strip + join of the data chunks), treated as an oracle. -/
  htmlText : String → String := id
  /-- Name `tempfile.NamedTemporaryFile(delete=False, suffix=ext)` assigns
  for a given suffix. -/
  mkTemp : String → String := fun s => "/tmp/tmp0" ++ s
  /-- Whether `_create_analyzer` raises `ModuleNotFoundError`/`ImportError`
  at the `process_document` call site. -/
  createAnalyzerRaisesImport : Bool := false
  /-- Analysis of the document at a path. -/
  analyze : String → DDAnalyzeOutcome := fun _ => .raiseMsg "unreachable"

/-- `_detect_format` (deepdoctection_wrapper.py lines 372-381): substring
tests on the lowercased URL. -/
def dd_detect_format (url : String) : String :=
  let url_lower := pyLower url
  if strContains url_lower ".pdf" then "pdf"
  else if strContains url_lower ".png" || strContains url_lower ".jpg" ||
          strContains url_lower ".jpeg" then "image"
  else if strContains url_lower ".tiff" || strContains url_lower ".tif" then "tiff"
  else "unknown"

/-- Format the wrapper records for a request: `_build_result` calls
`_detect_format(document_url)` and nothing else — in particular no field of
`options` flows into it. -/
def dd_request_format (config : DDConfig) : String :=
  dd_detect_format (config.document_url.getD "")

/-- `_download_document`: non-`http` references are returned as-is; URLs are
fetched and written to a fresh temporary file whose suffix comes from
substring tests on the URL (default `.pdf`).  Returns the local path and the
list of temporary files created. -/
def dd_download_document (env : DDEnv) (url : String) :
    Except String (String × List String) :=
  if pyStartsWith url "http" = false then .ok (url, [])
  else
    match env.httpGet30 url with
    | .error e => .error e
    | .ok _ =>
      let u := pyLower url
      let ext :=
        if strContains u ".pdf" then ".pdf"
        else if strContains u ".png" then ".png"
        else if strContains u ".jpg" || strContains u ".jpeg" then ".jpg"
        else if strContains u ".tiff" || strContains u ".tif" then ".tiff"
        else ".pdf"
      let p := env.mkTemp ext
      .ok (p, [p])

/-- The `error` string both fallback results carry. -/
def dd_unavailable_note (env : DDEnv) : String :=
  "DeepDoctection not available: " ++ (if env.available = false then env.importError else "Unknown")

/-- The HTML branch of `_get_fallback_result`. -/
def dd_fallback_html_result (env : DDEnv) (text : String) : DDResult :=
  { success := true
    mock := true
    document := some { text := pyTake text 1000, pages := 1, format := "html" }
    metadata := some { title := "Document", analyzer := "fallback_html_parser" }
    error := some (dd_unavailable_note env) }

/-- The default mock branch of `_get_fallback_result`. -/
def dd_fallback_mock_result (env : DDEnv) (document_url : String) : DDResult :=
  { success := true
    mock := true
    document := some { text := "Mock DeepDoctection result for: " ++ document_url,
                       pages := 1, format := "unknown" }
    metadata := some { title := "Mock Document Analysis", analyzer := "mock" }
    tables := []
    figures := []
    error := some (dd_unavailable_note env) }

/-- `_get_fallback_result` (lines 133-193): for an `http` reference it tries
a plain GET and, when the response is HTML, a minimal text scrape; every
failure of that attempt (and every non-http reference) falls through to the
fabricated default mock.  Both branches return `success=True`. -/
def dd_get_fallback_result (env : DDEnv) (config : DDConfig) : DDResult :=
  let document_url := config.document_url.getD "unknown"
  if pyStartsWith document_url "http" then
    match env.httpGet10 document_url with
    | .error _ => dd_fallback_mock_result env document_url
    | .ok resp =>
      if strContains resp.contentType "text/html" then
        dd_fallback_html_result env (env.htmlText resp.text)
      else dd_fallback_mock_result env document_url
  else dd_fallback_mock_result env document_url

/-- `_extract_page_info`: `getattr` harvesting of one raw page. -/
def dd_extract_page_info (page : DDRawPage) (page_num : Nat) : DDPageInfo :=
  { page_number := page_num
    text := page.text.getD ""
    tables := (page.tables.getD []).map fun t =>
      { rows := (t.cells.getD []).map fun c =>
          { text := c.text.getD "", row := c.row_idx.getD 0, col := c.col_idx.getD 0 }
        columns := t.column_count.getD 0
        bbox := t.bbox }
    figures := (page.images.getD []).map fun i =>
      { caption := i.caption.getD "", bbox := i.bbox }
    layout_elements := (page.layouts.getD []).map fun l =>
      { type := l.category_name.getD "unknown", text := l.text.getD "", bbox := l.bbox } }

/-- `_build_markdown`, one page's contribution to `markdown_parts`. -/
def dd_page_markdown (page : DDPageInfo) : List String :=
  let parts := ["## Page " ++ toString page.page_number ++ "\n"]
  let parts := parts ++ (if strTruthy page.text then [page.text ++ "\n"] else [])
  let parts := parts ++
    (if page.tables.isEmpty then [] else
      ("\n### Tables (Page " ++ toString page.page_number ++ ")") ::
        page.tables.enum.map (fun it =>
          "- Table " ++ toString (it.1 + 1) ++ ": " ++ toString it.2.columns ++ " columns"))
  parts ++
    (if page.figures.isEmpty then [] else
      ("\n### Figures (Page " ++ toString page.page_number ++ ")") ::
        page.figures.enum.map (fun it =>
          "- Figure " ++ toString (it.1 + 1) ++ ": " ++ it.2.caption))

def dd_build_markdown (pages : List DDPageInfo) : String :=
  String.intercalate "\n" (pages.map dd_page_markdown).flatten

/-- `_extract_title`. -/
def dd_extract_title (pages : List DDPageInfo) : String :=
  match pages with
  | [] => "Untitled Document"
  | first :: _ =>
    match first.layout_elements.find? (fun e => e.type = "title") with
    | some e => e.text
    | none =>
      if strTruthy first.text then
        match splitOnChar first.text '\n' with
        | [] => "Untitled Document"
        | l :: _ => pyTake l 100
      else "Untitled Document"

/-- `_build_result` (lines 305-341). -/
def dd_build_result (pages : List DDPageInfo) (document_url : String) : DDResult :=
  let full_text := String.intercalate "\n\n" (pages.map DDPageInfo.text)
  let all_tables := (pages.map DDPageInfo.tables).flatten
  let all_figures := (pages.map DDPageInfo.figures).flatten
  { success := true
    document := some { text := full_text, markdown := dd_build_markdown pages,
                       pages := pages.length, format := dd_detect_format document_url }
    metadata := some { title := dd_extract_title pages, analyzer := "deepdoctection",
                       page_count := some pages.length,
                       table_count := some all_tables.length,
                       figure_count := some all_figures.length }
    tables := all_tables
    figures := all_figures
    pages_info := pages }

/-- `DeepDoctectionWrapper.process_document` (lines 75-131), with the
file-system / backend-call log of the invocation. -/
def dd_process_document (env : DDEnv) (config : DDConfig) : DDResult × DDLog :=
  if env.available = false then (dd_get_fallback_result env config, {})
  else
    let document_url := config.document_url.getD ""
    if document_url = "" then
      ({ success := false, error := some "document_url is required" }, {})
    else
      match dd_download_document env document_url with
      | .error e =>
        ({ success := false, error := some ("DeepDoctection processing failed: " ++ e) }, {})
      | .ok (path, created) =>
        if env.createAnalyzerRaisesImport then
          (dd_get_fallback_result env config, { created := created })
        else
          match env.analyze path with
          | .raiseMsg m =>
            ({ success := false,
               error := some ("DeepDoctection processing failed: " ++ m) },
             { created := created, analyzed := [path] })
          | .pages rawPages =>
            let pages := rawPages.enum.map (fun ip => dd_extract_page_info ip.2 (ip.1 + 1))
            let deleted := if pyStartsWith path "/tmp/" then [path] else []
            (dd_build_result pages document_url,
             { created := created, unlinked := deleted, analyzed := [path] })

/-! ### Simple facts about the fallback -/

theorem dd_fallback_success (env : DDEnv) (config : DDConfig) :
    (dd_get_fallback_result env config).success = true := by
  unfold dd_get_fallback_result
  dsimp only
  split
  · split
    · rfl
    · split <;> rfl
  · rfl

theorem dd_fallback_mock (env : DDEnv) (config : DDConfig) :
    (dd_get_fallback_result env config).mock = true := by
  unfold dd_get_fallback_result
  dsimp only
  split
  · split
    · rfl
    · split <;> rfl
  · rfl

theorem dd_fallback_error (env : DDEnv) (config : DDConfig) :
    (dd_get_fallback_result env config).error = some (dd_unavailable_note env) := by
  unfold dd_get_fallback_result
  dsimp only
  split
  · split
    · rfl
    · split <;> rfl
  · rfl

theorem dd_fallback_metadata_degraded (env : DDEnv) (config : DDConfig) :
    ((dd_get_fallback_result env config).metadata.map DDMetadata.degraded) = some false := by
  unfold dd_get_fallback_result
  dsimp only
  split
  · split
    · rfl
    · split <;> rfl
  · rfl

theorem dd_unavailable_note_ne_empty (env : DDEnv) : dd_unavailable_note env ≠ "" := by
  unfold dd_unavailable_note
  apply prefixed_ne_empty
  decide

/-! ## DeepDoctection wrapper v2 (`deepdoctection_wrapper_v2.py`) -/

/-- `DocumentAnalyzer._get_document_type` (v2, lines 164-171): suffix tests
on the lowercased path; no `tiff` class. -/
def ddv2_get_document_type (path : String) : String :=
  let path_lower := pyLower path
  if pyEndsWith path_lower ".pdf" then "pdf"
  else if pyEndsWith path_lower ".png" || pyEndsWith path_lower ".jpg" ||
          pyEndsWith path_lower ".jpeg" then "image"
  else "unknown"

/-! ## Docling wrapper (`docling_wrapper.py`) -/

/-- Inline document content: a JSON string or raw bytes. -/
inductive DocumentData where
  | str (s : String)
  | bytes (b : List Nat)

/-- The option keys `docling_wrapper.py` reads. -/
structure DocOptions where
  document_type : Option String := none
  export_tables : Option Bool := none
  export_figures : Option Bool := none

structure DoclingConfig where
  document_data : Option DocumentData := none
  document_url : Option String := none
  options : DocOptions := {}

/-- A table object of a converted document, reduced to the attributes
`_extract_tables` / `_convert_to_json` probe: `caption`, the
`export_to_dataframe` view (headers and row lists) when that method exists,
and the plain `data` attribute. -/
structure DoclingTableRaw where
  caption : Option String := none
  dataframe : Option (List String × List (List String)) := none
  data : Option (List (List String)) := none
deriving Repr, DecidableEq

structure DoclingFigRaw where
  caption : Option String := none
  page : Option Nat := none
  /-- `figure.image`, when present and truthy, as its byte serialization. -/
  image : Option (List Nat) := none
deriving Repr, DecidableEq

structure DoclingAnnRaw where
  type : Option String := none
  content : Option String := none
  page : Option Nat := none
deriving Repr, DecidableEq

structure DoclingBmRaw where
  title : Option String := none
  page : Option Nat := none
  level : Option Nat := none
deriving Repr, DecidableEq

structure DoclingFfRaw where
  name : Option String := none
  type : Option String := none
  value : Option String := none
  page : Option Nat := none
deriving Repr, DecidableEq

structure DoclingEfRaw where
  name : Option String := none
  size : Option Nat := none
  type : Option String := none
deriving Repr, DecidableEq

/-- A converted document, reduced to the attributes the normalizer probes.
`none` models an absent attribute (or a falsy one where the source tests
truthiness, e.g. `document.title`). -/
structure DoclingDoc where
  export_to_markdown : Option String := none
  export_to_html : Option String := none
  title : Option String := none
  created : Option String := none
  modified : Option String := none
  author : Option String := none
  language : Option String := none
  /-- The `text.text` values of `document.texts`. -/
  texts : Option (List String) := none
  /-- `len(document.pages)`. -/
  page_count : Option Nat := none
  tables : Option (List DoclingTableRaw) := none
  pictures : Option (List DoclingFigRaw) := none
  annotations : Option (List DoclingAnnRaw) := none
  bookmarks : Option (List DoclingBmRaw) := none
  form_fields : Option (List DoclingFfRaw) := none
  embedded_files : Option (List DoclingEfRaw) := none
deriving Repr, DecidableEq

/-- `ConversionResult`: accessing `result.document` either yields the
document or raises (caught by `_process_result`'s handler). -/
structure ConvResult where
  document : Except String DoclingDoc

/-- Environment of one docling wrapper invocation. -/
structure DoclingEnv where
  /-- `DOCLING_AVAILABLE`. -/
  available : Bool
  /-- `IMPORT_ERROR`. -/
  importError : String := ""
  /-- `base64.b64decode`: `none` models a raised `binascii.Error`. -/
  b64decode : String → Option (List Nat) := fun _ => none
  /-- Temp-file name for a given suffix. -/
  mkTemp : String → String := fun s => "/tmp/tmp1" ++ s
  /-- `converter.convert(path)` on a temp file holding the given bytes. -/
  convert : String → List Nat → Except String ConvResult :=
    fun _ _ => .error "unreachable"
  /-- `urllib.request.urlopen(url)` + `read()`. -/
  urlopen : String → Except String (List Nat) := fun _ => .error "unreachable"

structure DoclingLog where
  created : List String := []
  unlinked : List String := []
  converted : List String := []
deriving Repr, DecidableEq

/-- `document` sub-dictionary of the docling result. -/
structure DoclingJsonOut where
  title : String := ""
  content : String := ""
  tables : List (List String × List (List String)) := []
  figures : List (String × Nat) := []
deriving Repr, DecidableEq

structure DoclingDocument where
  text : String := ""
  markdown : String := ""
  html : String := ""
  json : DoclingJsonOut := {}
deriving Repr, DecidableEq

/-- `metadata` dictionary built piecemeal by `_extract_metadata` (and the
differently-shaped one of the mock branch). -/
structure DoclingMeta where
  title : Option String := none
  created_date : Option String := none
  modified_date : Option String := none
  author : Option String := none
  language : Option String := none
  word_count : Option Nat := none
  page_count : Option Nat := none
  document_type : String := "pdf"
deriving Repr, DecidableEq

structure DoclingTableOut where
  index : Nat := 0
  rows : List (List String) := []
  headers : Option (List String) := none
  caption : String := ""
  num_rows : Nat := 0
  num_cols : Nat := 0
deriving Repr, DecidableEq

structure DoclingFigOut where
  index : Nat := 0
  caption : String := ""
  page : Nat := 0
  type : String := "image"
  image_data : Option String := none
deriving Repr, DecidableEq

structure DoclingAnnOut where
  type : String := "unknown"
  content : String := ""
  page : Nat := 0
deriving Repr, DecidableEq

structure DoclingBmOut where
  title : String := ""
  page : Nat := 0
  level : Nat := 0
deriving Repr, DecidableEq

structure DoclingFfOut where
  name : String := ""
  type : String := ""
  value : String := ""
  page : Nat := 0
deriving Repr, DecidableEq

structure DoclingEfOut where
  name : String := ""
  size : Nat := 0
  type : String := ""
deriving Repr, DecidableEq

/-- Result dictionary of the docling wrapper. -/
structure DoclingResult where
  success : Bool
  error : Option String := none
  mock : Bool := false
  document : Option DoclingDocument := none
  metadata : Option DoclingMeta := none
  tables : List DoclingTableOut := []
  figures : List DoclingFigOut := []
  annotations : List DoclingAnnOut := []
  bookmarks : List DoclingBmOut := []
  form_fields : List DoclingFfOut := []
  embedded_files : List DoclingEfOut := []
  processing_error : Option String := none
deriving Repr, DecidableEq

/-- `_get_file_suffix`: driven solely by the `document_type` option
(default `pdf`); the reference's suffix is never consulted. -/
def docling_get_file_suffix (options : DocOptions) : String :=
  let doc_type := options.document_type.getD "pdf"
  if doc_type = "pdf" then ".pdf"
  else if doc_type = "docx" then ".docx"
  else if doc_type = "doc" then ".doc"
  else if doc_type = "pptx" then ".pptx"
  else if doc_type = "ppt" then ".ppt"
  else if doc_type = "xlsx" then ".xlsx"
  else if doc_type = "xls" then ".xls"
  else if doc_type = "html" then ".html"
  else if doc_type = "txt" then ".txt"
  else if doc_type = "md" then ".md"
  else ".pdf"

/-- `_extract_metadata`. -/
def docling_extract_metadata (doc : DoclingDoc) : DoclingMeta :=
  { title := doc.title
    created_date := doc.created
    modified_date := doc.modified
    author := doc.author
    language := doc.language
    word_count := doc.texts.map (fun ts => (ts.map pyWordCount).sum)
    page_count := doc.page_count
    document_type := "pdf" }

/-- `_extract_tables`. -/
def docling_extract_tables (doc : DoclingDoc) (options : DocOptions) :
    List DoclingTableOut :=
  if options.export_tables.getD true = false then []
  else
    (doc.tables.getD []).enum.map fun it =>
      let t := it.2
      let base : DoclingTableOut :=
        { index := it.1, rows := [], caption := t.caption.getD "",
          num_rows := 0, num_cols := 0 }
      match t.dataframe with
      | some df =>
        { base with rows := df.2, headers := some df.1,
                    num_rows := df.2.length, num_cols := df.1.length }
      | none =>
        match t.data with
        | some d => { base with rows := d }
        | none => base

/-- `_extract_figures`. -/
def docling_extract_figures (doc : DoclingDoc) (options : DocOptions) :
    List DoclingFigOut :=
  if options.export_figures.getD false = false then []
  else
    (doc.pictures.getD []).enum.map fun it =>
      { index := it.1, caption := it.2.caption.getD "", page := it.2.page.getD 0,
        type := "image", image_data := it.2.image.map b64encode }

def docling_extract_annotations (doc : DoclingDoc) : List DoclingAnnOut :=
  (doc.annotations.getD []).map fun a =>
    { type := a.type.getD "unknown", content := a.content.getD "", page := a.page.getD 0 }

def docling_extract_bookmarks (doc : DoclingDoc) : List DoclingBmOut :=
  (doc.bookmarks.getD []).map fun b =>
    { title := b.title.getD "", page := b.page.getD 0, level := b.level.getD 0 }

def docling_extract_form_fields (doc : DoclingDoc) : List DoclingFfOut :=
  (doc.form_fields.getD []).map fun f =>
    { name := f.name.getD "", type := f.type.getD "", value := f.value.getD "",
      page := f.page.getD 0 }

def docling_extract_embedded_files (doc : DoclingDoc) : List DoclingEfOut :=
  (doc.embedded_files.getD []).map fun f =>
    { name := f.name.getD "", size := f.size.getD 0, type := f.type.getD "" }

/-- `_convert_to_html`. -/
def docling_convert_to_html (doc : DoclingDoc) : String :=
  match doc.export_to_html with
  | some h => h
  | none =>
    match doc.export_to_markdown with
    | some md => "<html><body>" ++ replaceCharStr md '\n' "<br>" ++ "</body></html>"
    | none => "<html><body>No content available</body></html>"

/-- `_convert_to_json`. -/
def docling_convert_to_json (doc : DoclingDoc) : DoclingJsonOut :=
  { title := doc.title.getD ""
    content := doc.export_to_markdown.getD ""
    tables := (doc.tables.getD []).filterMap DoclingTableRaw.dataframe
    figures := (doc.pictures.getD []).map fun f => (f.caption.getD "", f.page.getD 0) }

/-- `DoclingWrapper._process_result` (lines 197-226): the result normalizer.
A pure mapping of the converted document; it reads nothing from the ambient
state, which the determinism claim below makes precise. -/
def docling_process_result (amb : Amb) (result : ConvResult) (options : DocOptions) :
    DoclingResult :=
  match result.document with
  | .error e =>
    { success := false, error := some ("Failed to process result: " ++ e) }
  | .ok doc =>
    { success := true
      document := some
        { text := doc.export_to_markdown.getD ""
          markdown := doc.export_to_markdown.getD ""
          html := docling_convert_to_html doc
          json := docling_convert_to_json doc }
      metadata := some (docling_extract_metadata doc)
      tables := docling_extract_tables doc options
      figures := docling_extract_figures doc options
      annotations := docling_extract_annotations doc
      bookmarks := docling_extract_bookmarks doc
      form_fields := docling_extract_form_fields doc
      embedded_files := docling_extract_embedded_files doc }

/-- The mock result `process_document`'s exception handler fabricates
(lines 97-129).  It reads the wall clock. -/
def docling_mock_result (amb : Amb) (e : String) : DoclingResult :=
  { success := true
    mock := true
    document := some
      { text := "Mock Docling extracted content (processing failed)"
        markdown := "# Mock Docling Document\n\nExtracted content (processing failed)"
        html := "<h1>Mock Document</h1><p>Mock content (processing failed)</p>"
        json := { title := "Mock Document", content := "Mock content (processing failed)" } }
    metadata := some
      { title := some "Mock Document", author := some "Mock Author",
        created_date := some amb.now, page_count := some 1, word_count := some 10,
        document_type := "pdf", language := some "en" }
    processing_error := some e }

/-- `_process_from_bytes` (lines 148-164): temp file written, conversion
attempted, unlink in a `finally`. -/
def docling_process_from_bytes (env : DoclingEnv) (document_bytes : List Nat)
    (options : DocOptions) : Except String ConvResult × DoclingLog :=
  let path := env.mkTemp (docling_get_file_suffix options)
  match env.convert path document_bytes with
  | .ok r => (.ok r, { created := [path], unlinked := [path], converted := [path] })
  | .error e => (.error e, { created := [path], unlinked := [path], converted := [path] })

/-- `_process_from_url` (lines 166-178): the `try` wraps both the download
and the byte processing, so either failure is re-raised with the
download-failure message. -/
def docling_process_from_url (env : DoclingEnv) (url : String) (options : DocOptions) :
    Except String ConvResult × DoclingLog :=
  match env.urlopen url with
  | .error e =>
    (.error ("Failed to download document from URL " ++ url ++ ": " ++ e), {})
  | .ok bs =>
    match docling_process_from_bytes env bs options with
    | (.ok r, log) => (.ok r, log)
    | (.error e, log) =>
      (.error ("Failed to download document from URL " ++ url ++ ": " ++ e), log)

/-- Python truthiness of the `document_data` value. -/
def docling_data_truthy : Option DocumentData → Bool
  | none => false
  | some (.str s) => strTruthy s
  | some (.bytes b) => !b.isEmpty

/-- Lines 80-88: base64 decoding of inline string data, with the decode
failure falling back to the raw UTF-8 encoding of the string. -/
def docling_inline_bytes (env : DoclingEnv) : DocumentData → List Nat
  | .str s =>
    match env.b64decode s with
    | some b => b
    | none => utf8Bytes s
  | .bytes b => b

/-- `DoclingWrapper.process_document` (lines 44-129). -/
def docling_process_document (amb : Amb) (env : DoclingEnv) (config : DoclingConfig) :
    DoclingResult × DoclingLog :=
  if env.available = false then
    ({ success := false, error := some ("Docling not available: " ++ env.importError),
       mock := true }, {})
  else
    let dataT := docling_data_truthy config.document_data
    let urlT := strTruthy (config.document_url.getD "")
    if dataT = false && urlT = false then
      ({ success := false,
         error := some "Either document_data or document_url is required" }, {})
    else
      let step :=
        if dataT then
          docling_process_from_bytes env
            (docling_inline_bytes env (config.document_data.getD (.str "")))
            config.options
        else
          docling_process_from_url env (config.document_url.getD "") config.options
      match step with
      | (.ok convres, log) => (docling_process_result amb convres config.options, log)
      | (.error e, log) => (docling_mock_result amb e, log)

theorem docling_mock_success (amb : Amb) (e : String) :
    (docling_mock_result amb e).success = true := rfl

/-! ## Crawl4AI wrapper (`crawl4ai_wrapper.py`) -/

/-- The retry trigger (lines 106 and 121): the exception message contains
both `deprecated` and `provider`, case-insensitively. -/
def cr_is_deprecated_provider (msg : String) : Bool :=
  strContains (pyLower msg) "deprecated" && strContains (pyLower msg) "provider"

/-- The `crawl_config` sub-dictionary, reduced to the keys the retry logic
manipulates; all other entries are opaque. -/
structure CrawlCfg where
  /-- The `extraction_strategy` entry, when present (opaque payload). -/
  extraction_strategy : Option String := none
  session_id : Option String := none
  other : List (String × String) := []
deriving Repr, DecidableEq

/-- The keyword-argument dictionary `_prepare_crawl_params` builds, reduced
likewise. -/
structure CrawlParams where
  /-- The constructed `extraction_strategy` object, when the key is set. -/
  extraction_strategy : Option String := none
  other : List (String × String) := []
deriving Repr, DecidableEq

/-- `{k: v for k, v in params.items() if k != "extraction_strategy"}`. -/
def CrawlParams.stripStrategy (p : CrawlParams) : CrawlParams :=
  { p with extraction_strategy := none }

/-- `{k: v for k, v in crawl_config.items() if k != "extraction_strategy"}`. -/
def CrawlCfg.stripStrategy (c : CrawlCfg) : CrawlCfg :=
  { c with extraction_strategy := none }

structure CrRawMeta where
  title : Option String := none
  description : Option String := none
  keywords : Option (List String) := none
  author : Option String := none
  language : Option String := none
deriving Repr, DecidableEq

/-- `first_result.links`: a dict with `internal`/`external`, or a plain
list. -/
inductive CrRawLinks where
  | dict (internal external : List String)
  | list (items : List String)
deriving Repr, DecidableEq

structure CrRawMedia where
  videos : Option (List String) := none
  audios : Option (List String) := none
deriving Repr, DecidableEq

/-- `first_result.screenshot`, when present and truthy. -/
inductive CrScreenshot where
  | bytes (b : List Nat)
  | str (s : String)
deriving Repr, DecidableEq

/-- A crawl result object, reduced to the attributes `_process_result`
probes.  `none` models an absent attribute (or a falsy one where the source
tests truthiness).  `session_id` distinguishes an absent attribute
(`none`, which makes `getattr` fall back to the config default) from a
present `None` value (`some none`). -/
structure CrRaw where
  success : Option Bool := none
  url : Option String := none
  html : Option String := none
  cleaned_html : Option String := none
  markdown : Option String := none
  extracted_content : Option String := none
  fit_markdown : Option String := none
  fit_html : Option String := none
  response_headers : Option (List (String × String)) := none
  status_code : Option Nat := none
  session_id : Option (Option String) := none
  error_message : Option String := none
  metadata : Option CrRawMeta := none
  links : Option CrRawLinks := none
  images : Option (List String) := none
  media : Option CrRawMedia := none
  screenshot : Option CrScreenshot := none
deriving Repr, DecidableEq

structure CrMeta where
  title : String := ""
  description : String := ""
  keywords : List String := []
  author : String := ""
  language : String := ""
deriving Repr, DecidableEq

/-- The dictionary `_process_result` builds.  Note it has no `error` key:
the `error` field below models only the explicit failure dictionaries, and
stays `none` in every normalizer output. -/
structure CrProcessed where
  success : Bool
  url : String := ""
  html : String := ""
  cleaned_html : String := ""
  markdown : String := ""
  extracted_content : String := ""
  fit_markdown : String := ""
  fit_html : String := ""
  metadata : Option CrMeta := none
  links_internal : List String := []
  links_external : List String := []
  images : List String := []
  media_videos : List String := []
  media_audios : List String := []
  screenshot : Option String := none
  response_headers : List (String × String) := []
  status_code : Nat := 200
  session_id : Option String := none
  error_message : Option String := none
  error : Option String := none
deriving Repr, DecidableEq

/-- An explicit failure dictionary of the crawl4ai wrapper. -/
structure CrFail where
  success : Bool
  error : Option String := none
  mock : Bool := false
deriving Repr, DecidableEq

/-- A value returned by `crawl` / printed by `main`. -/
inductive CrOut where
  | fail (r : CrFail)
  | ok (r : CrProcessed)
deriving Repr, DecidableEq

def CrOut.successFlag : CrOut → Bool
  | .fail r => r.success
  | .ok r => r.success

def CrOut.errorField : CrOut → Option String
  | .fail r => r.error
  | .ok r => r.error

/-- Environment of one crawl4ai wrapper invocation. -/
structure CrEnv where
  /-- `CRAWL4AI_AVAILABLE`. -/
  available : Bool
  /-- `IMPORT_ERROR`. -/
  importError : String := ""
  /-- `AsyncWebCrawler(**crawler_config)` construction. -/
  createCrawler : Except String Unit := .ok ()
  /-- `_prepare_crawl_params`: configuration translation plus the strategy /
  filter constructor calls, which may raise. -/
  prepare : CrawlCfg → Except String CrawlParams := fun _ => .ok {}
  /-- `crawler.arun(url, **params)`. -/
  arun : String → CrawlParams → Except String CrRaw := fun _ _ => .error "unreachable"
  /-- `crawler.close()`. -/
  closeCrawler : Except String Unit := .ok ()

structure CrConfig where
  url : Option String := none
  crawl_config : CrawlCfg := {}
deriving Repr, DecidableEq

/-- Lines 101-111: parameter preparation, with a single retry on the
deprecated-provider condition, the `extraction_strategy` key removed from
the configuration for the retry; any other exception is re-raised. -/
def cr_prepare_with_retry (env : CrEnv) (cfg : CrawlCfg) : Except String CrawlParams :=
  match env.prepare cfg with
  | .ok p => .ok p
  | .error e =>
    if cr_is_deprecated_provider e then env.prepare cfg.stripStrategy
    else .error e

/-- Lines 115-126: the backend call, with a single retry on the
deprecated-provider condition, the `extraction_strategy` key removed from
the parameters for the retry; any other exception is re-raised.  The second
component lists the `arun` calls made, in order. -/
def cr_arun_with_retry (arun : String → CrawlParams → Except String CrRaw)
    (url : String) (p : CrawlParams) : Except String CrRaw × List CrawlParams :=
  match arun url p with
  | .ok r => (.ok r, [p])
  | .error e =>
    if cr_is_deprecated_provider e then (arun url p.stripStrategy, [p, p.stripStrategy])
    else (.error e, [p])

/-- `Crawl4AIWrapper._process_result` (lines 261-337): the result
normalizer.  A pure mapping of the crawl result object; it reads nothing
from the ambient state. -/
def cr_process_result (amb : Amb) (raw : CrRaw) (config : CrConfig) : CrProcessed :=
  { success := raw.success.getD true
    url := raw.url.getD ""
    html := raw.html.getD ""
    cleaned_html := raw.cleaned_html.getD ""
    markdown := raw.markdown.getD ""
    extracted_content := raw.extracted_content.getD ""
    fit_markdown := raw.fit_markdown.getD ""
    fit_html := raw.fit_html.getD ""
    metadata := raw.metadata.map fun m =>
      { title := m.title.getD "", description := m.description.getD "",
        keywords := m.keywords.getD [], author := m.author.getD "",
        language := m.language.getD "" }
    links_internal :=
      match raw.links with
      | some (.dict i _) => i
      | _ => []
    links_external :=
      match raw.links with
      | some (.dict _ e) => e
      | some (.list ls) => ls
      | none => []
    images := raw.images.getD []
    media_videos := (raw.media.map fun m => m.videos.getD []).getD []
    media_audios := (raw.media.map fun m => m.audios.getD []).getD []
    screenshot :=
      match raw.screenshot with
      | some (.bytes b) => some (b64encode b)
      | some (.str s) => some s
      | none => none
    response_headers := raw.response_headers.getD []
    status_code := raw.status_code.getD 200
    session_id :=
      match raw.session_id with
      | some v => v
      | none => config.crawl_config.session_id
    error_message := raw.error_message }

/-- `Crawl4AIWrapper.crawl` (lines 68-139).  The second component lists the
`arun` calls made. -/
def cr_crawl (amb : Amb) (env : CrEnv) (config : CrConfig) : CrOut × List CrawlParams :=
  if env.available = false then
    (.fail { success := false,
             error := some ("Crawl4AI not available: " ++ env.importError),
             mock := true }, [])
  else
    let url := config.url.getD ""
    if url = "" then
      (.fail { success := false, error := some "URL is required" }, [])
    else
      match env.createCrawler with
      | .error e => (.fail { success := false, error := some e }, [])
      | .ok _ =>
        match cr_prepare_with_retry env config.crawl_config with
        | .error e => (.fail { success := false, error := some e }, [])
        | .ok params =>
          match cr_arun_with_retry env.arun url params with
          | (.error e, calls) => (.fail { success := false, error := some e }, calls)
          | (.ok raw, calls) =>
            match env.closeCrawler with
            | .error e => (.fail { success := false, error := some e }, calls)
            | .ok _ => (.ok (cr_process_result amb raw config), calls)

/-! ## `main` entry points -/

/-- Observable behaviour of one `main` run: the JSON result objects printed
to stdout, and the process exit code. -/
structure MainOut (R : Type) where
  printed : List R
  exitCode : Nat

/-- `deepdoctection_wrapper.main` (lines 404-431).  `parse` is
`json.loads` + dictionary reading of `sys.argv[1]`; its `Except.error`
models a raised exception, handled by printing an error result and exiting
with status 1. -/
def dd_main (env : DDEnv) (argv : List String)
    (parse : String → Except String DDConfig) : MainOut DDResult :=
  match argv with
  | _ :: a1 :: _ =>
    (match parse a1 with
     | .error e => { printed := [{ success := false, error := some e }], exitCode := 1 }
     | .ok config => { printed := [(dd_process_document env config).1], exitCode := 0 })
  | _ =>
    { printed := [{ success := false, error := some "Configuration argument required" }],
      exitCode := 0 }

/-- `crawl4ai_wrapper.main` (lines 340-367). -/
def cr_main (amb : Amb) (env : CrEnv) (argv : List String)
    (parse : String → Except String CrConfig) : MainOut CrOut :=
  match argv with
  | _ :: a1 :: _ =>
    (match parse a1 with
     | .error e =>
       { printed := [.fail { success := false, error := some e }], exitCode := 1 }
     | .ok config => { printed := [(cr_crawl amb env config).1], exitCode := 0 })
  | _ =>
    { printed := [.fail { success := false, error := some "Configuration argument required" }],
      exitCode := 0 }

/-- `docling_wrapper.main` (lines 447-474). -/
def docling_main (amb : Amb) (env : DoclingEnv) (argv : List String)
    (parse : String → Except String DoclingConfig) : MainOut DoclingResult :=
  match argv with
  | _ :: a1 :: _ =>
    (match parse a1 with
     | .error e => { printed := [{ success := false, error := some e }], exitCode := 1 }
     | .ok config =>
       { printed := [(docling_process_document amb env config).1], exitCode := 0 })
  | _ =>
    { printed := [{ success := false, error := some "Configuration argument required" }],
      exitCode := 0 }

/-! ## Specification-side definition for the detection-policy claim -/

/-- Modelled from the spec: the detection policy of section 4.2 — "prefer
explicit type hints in the request; otherwise infer from reference suffix
(`.pdf`, `.png`/`.jpg`/`.jpeg`, `.tiff`); default to a generic/unknown type
when no signal exists".  Stated as a function of the request's hint and its
reference, for comparison with the source-side detection. -/
def spec_detect (hint : Option String) (ref : String) : String :=
  match hint with
  | some h => h
  | none =>
    let r := pyLower ref
    if pyEndsWith r ".pdf" then "pdf"
    else if pyEndsWith r ".png" || pyEndsWith r ".jpg" || pyEndsWith r ".jpeg" then "image"
    else if pyEndsWith r ".tiff" then "tiff"
    else "unknown"

/-! ## Shared concrete fixtures -/

/-- A fixed ambient state for concrete evaluations. -/
def ambW : Amb := { now := "2026-10-12T00:00:00" }

/-- A deepdoctection environment with the backend importable. -/
def ddEnvAvail : DDEnv := { available := true }

theorem dd_build_result_success (pages : List DDPageInfo) (u : String) :
    (dd_build_result pages u).success = true := rfl

/-! ## Claims -/

/-- Claim C5: when the backend call (`crawler.arun`) raises the
deprecated/incompatible-parameter condition, exactly one retry occurs with
the `extraction_strategy` parameter stripped before giving up (the retry's
outcome, success or failure, is final); every other exception from the
backend call is permanent for that call and triggers no retry. -/
theorem claimC5_theorem (arun : String → CrawlParams → Except String CrRaw)
    (url : String) (p : CrawlParams) (e : String)
    (h : arun url p = .error e) :
    (cr_is_deprecated_provider e = true →
       (cr_arun_with_retry arun url p).2 = [p, p.stripStrategy] ∧
       (cr_arun_with_retry arun url p).1 = arun url p.stripStrategy ∧
       p.stripStrategy.extraction_strategy = none) ∧
    (cr_is_deprecated_provider e = false →
       (cr_arun_with_retry arun url p).2 = [p] ∧
       (cr_arun_with_retry arun url p).1 = .error e) := by
  unfold cr_arun_with_retry
  rw [h]
  constructor
  · intro hd
    simp [hd, CrawlParams.stripStrategy]
  · intro hd
    simp [hd]

def claimC5ArunW : String → CrawlParams → Except String CrRaw := fun _ q =>
  if q.extraction_strategy.isSome then .error "Provider openai/gpt is deprecated"
  else .ok { success := some true }

def claimC5ParamsW : CrawlParams := { extraction_strategy := some "llm" }

/-- Witness for C5: a backend raising the deprecated-provider condition on
the first call is called exactly twice, the second time without the
extraction strategy, and the retry's success is returned. -/
theorem claimC5_witness :
    (cr_arun_with_retry claimC5ArunW "http://example.com" claimC5ParamsW).2 =
      [claimC5ParamsW, claimC5ParamsW.stripStrategy] ∧
    (cr_arun_with_retry claimC5ArunW "http://example.com" claimC5ParamsW).1 =
      .ok { success := some true } := by
  have h := claimC5_theorem claimC5ArunW "http://example.com" claimC5ParamsW
    "Provider openai/gpt is deprecated" rfl
  have hd : cr_is_deprecated_provider "Provider openai/gpt is deprecated" = true := by decide
  obtain ⟨h1, h2, _⟩ := h.1 hd
  exact ⟨h1, h2.trans rfl⟩

/-- Claim C9 (confirmed): normalization is deterministic and, run twice on
the same raw backend output, yields byte-identical results — the normalizers
`_process_result` of the crawl4ai and docling wrappers read nothing from the
ambient process state, so any serialization of their output is identical
across two runs on the same input. -/
theorem claimC9_theorem :
    (∀ (ser : CrProcessed → String) (a1 a2 : Amb) (raw : CrRaw) (config : CrConfig),
       ser (cr_process_result a1 raw config) = ser (cr_process_result a2 raw config)) ∧
    (∀ (ser : DoclingResult → String) (a1 a2 : Amb) (result : ConvResult)
       (options : DocOptions),
       ser (docling_process_result a1 result options) =
         ser (docling_process_result a2 result options)) :=
  ⟨fun _ _ _ _ _ => rfl, fun _ _ _ _ _ => rfl⟩

/-- Counterexample to C7 as stated: the spec-side detection policy prefers
the request's explicit hint, but the wrapper's request-level detection is
`_detect_format(document_url)` with no option flowing in — on a request
hinted `image` whose reference is `photo.pdf` the code yields `pdf`, not the
hinted `image`. -/
theorem claimC7_counterexample :
    spec_detect (some "image") "photo.pdf" = "image" ∧
    dd_request_format { document_url := some "photo.pdf",
                        options := { document_type := some "image" } } = "pdf" ∧
    dd_request_format { document_url := some "photo.pdf",
                        options := { document_type := some "image" } } ≠
      spec_detect (some "image") "photo.pdf" := by
  refine ⟨rfl, by decide, by decide⟩

/-- Claim C7 (amended): detection never consults a request hint — it is a
pure function of the reference.  The deepdoctection wrapper classifies by
case-insensitive substring occurrence (`.pdf` → `pdf`; `.png`/`.jpg`/`.jpeg`
→ `image`; `.tiff`/`.tif` → `tiff`), so in particular a `.pdf` suffix maps
to `pdf`, and a reference with none of the markers maps to `unknown`; the v2
variant classifies by true suffix match and has no `tiff` class. -/
theorem claimC7_amended :
    (∀ (url : Option String) (o1 o2 : DDOptions),
       dd_request_format { document_url := url, options := o1 } =
         dd_request_format { document_url := url, options := o2 }) ∧
    (∀ u, pyEndsWith (pyLower u) ".pdf" = true → dd_detect_format u = "pdf") ∧
    (∀ u, strContains (pyLower u) ".pdf" = false → strContains (pyLower u) ".png" = false →
       strContains (pyLower u) ".jpg" = false → strContains (pyLower u) ".jpeg" = false →
       strContains (pyLower u) ".tif" = false →
       dd_detect_format u = "unknown") ∧
    ddv2_get_document_type "scan.tiff" = "unknown" := by
  refine ⟨fun url o1 o2 => rfl, ?_, ?_, by decide⟩
  · intro u h
    unfold dd_detect_format
    simp [strContains_of_pyEndsWith _ _ h]
  · intro u h1 h2 h3 h4 h5
    have htiff : strContains (pyLower u) ".tiff" = false := by
      cases hc : strContains (pyLower u) ".tiff"
      · rfl
      · exfalso
        have hcc : strContains (pyLower u) ".tif" = true := by
          unfold strContains at hc ⊢
          exact decide_eq_true
            (List.IsInfix.trans (by decide) (of_decide_eq_true hc))
        rw [hcc] at h5
        exact absurd h5 (by decide)
    unfold dd_detect_format
    simp [h1, h2, h3, h4, h5, htiff]

/-- Witness for C7: the suffix-inference clause applied to a concrete
uppercase reference. -/
theorem claimC7_witness : dd_detect_format "Report.PDF" = "pdf" :=
  claimC7_amended.2.1 "Report.PDF" (by decide)

def claimC3EnvW : DDEnv := { available := false, importError := "No module named deepdoctection" }

/-- Counterexample to C3 as stated: with every backend exhausted (the
library unavailable and the reference not even fetchable), the fallback
result is `success=true` with no `metadata.degraded` flag (the metadata
carries no such key, modelled as `false`) and fabricated mock content —
the claim required `metadata.degraded=true`, and `success=false` when no
real content could be produced. -/
theorem claimC3_counterexample :
    ((dd_get_fallback_result claimC3EnvW { document_url := some "file.bin" }).success = true) ∧
    ((dd_get_fallback_result claimC3EnvW { document_url := some "file.bin" }).metadata.map
        DDMetadata.degraded = some false) ∧
    ((dd_get_fallback_result claimC3EnvW { document_url := some "file.bin" }).document.map
        DDDocument.text = some "Mock DeepDoctection result for: file.bin") := by
  refine ⟨by decide, by decide, by decide⟩

/-- Claim C3 (amended): when the preferred backends are exhausted the
fallback always produces a degraded-but-successful result, but the degraded
markers are a top-level `mock=true` flag and an explanatory `error` string —
not `metadata.degraded` — and `success=false` is never produced on
exhaustion: even when the minimal fallback obtains no content, fabricated
mock text is returned with `success=true`. -/
theorem claimC3_amended (env : DDEnv) (config : DDConfig) :
    (dd_get_fallback_result env config).success = true ∧
    (dd_get_fallback_result env config).mock = true ∧
    (dd_get_fallback_result env config).metadata.map DDMetadata.degraded = some false ∧
    (dd_get_fallback_result env config).error = some (dd_unavailable_note env) ∧
    dd_unavailable_note env ≠ "" :=
  ⟨dd_fallback_success env config, dd_fallback_mock env config,
   dd_fallback_metadata_degraded env config, dd_fallback_error env config,
   dd_unavailable_note_ne_empty env⟩

def claimC4EnvW : DDEnv := { available := false, importError := "No module named dd" }

/-- Counterexample to C4 as stated: with the deepdoctection backend
unavailable, a request missing its target reference is answered by the
fallback with `success=true` — not the required `success=false`. -/
theorem claimC4_counterexample :
    ((dd_process_document claimC4EnvW { document_url := none }).1.success = true) ∧
    ((dd_process_document claimC4EnvW { document_url := none }).1.error =
       some "DeepDoctection not available: No module named dd") := by
  refine ⟨by decide, by decide⟩

/-- Claim C4 (amended): a request missing its target reference yields
`success=false` with a non-empty error and no backend invocation in the
crawl4ai and docling wrappers unconditionally, and in the deepdoctection
wrapper when its backend is available; only the deepdoctection wrapper with
the backend unavailable instead returns the `success=true` mock fallback
without checking the reference. -/
theorem claimC4_amended :
    (∀ (env : DDEnv) (config : DDConfig),
       env.available = true → config.document_url.getD "" = "" →
       dd_process_document env config =
         ({ success := false, error := some "document_url is required" }, {})) ∧
    (∀ (amb : Amb) (env : CrEnv) (config : CrConfig),
       config.url.getD "" = "" →
       (cr_crawl amb env config).1.successFlag = false ∧
       (cr_crawl amb env config).1.errorField.getD "" ≠ "" ∧
       (cr_crawl amb env config).2 = []) ∧
    (∀ (amb : Amb) (env : DoclingEnv) (config : DoclingConfig),
       docling_data_truthy config.document_data = false →
       config.document_url.getD "" = "" →
       (docling_process_document amb env config).1.success = false ∧
       (docling_process_document amb env config).1.error.getD "" ≠ "" ∧
       (docling_process_document amb env config).2 = {}) := by
  refine ⟨?_, ?_, ?_⟩
  · intro env config ha hu
    unfold dd_process_document
    simp [ha, hu]
  · intro amb env config hu
    unfold cr_crawl
    cases hav : env.available
    · simp only [hav]
      exact ⟨rfl, prefixed_ne_empty _ _ (by decide), rfl⟩
    · refine ⟨?_, ?_, ?_⟩
      · simp [hav, hu, CrOut.successFlag]
      · simp [hav, hu, CrOut.errorField]
      · simp [hav, hu]
  · intro amb env config hd hu
    unfold docling_process_document
    cases hav : env.available
    · simp only [hav]
      exact ⟨rfl, prefixed_ne_empty _ _ (by decide), rfl⟩
    · refine ⟨?_, ?_, ?_⟩
      · simp [hav, hd, hu, strTruthy]
      · simp [hav, hd, hu, strTruthy]
      · simp [hav, hd, hu, strTruthy]

/-- Witness for C4: a missing reference with the backend available yields
exactly the configuration-error result with an empty effect log. -/
theorem claimC4_witness :
    dd_process_document ddEnvAvail { document_url := none } =
      ({ success := false, error := some "document_url is required" }, {}) :=
  claimC4_amended.1 ddEnvAvail { document_url := none } rfl rfl

def claimC6EnvW : DDEnv :=
  { available := true,
    httpGet30 := fun _ => .ok { contentType := "application/pdf" },
    analyze := fun _ => .raiseMsg "analysis backend crashed" }

/-- Counterexample to C6 as stated: in the deepdoctection wrapper a
downloaded temporary file is unlinked only on the successful-analysis path —
when the analyzer raises, the invocation returns a failure result with the
temporary file still in existence (created but never unlinked). -/
theorem claimC6_counterexample :
    ((dd_process_document claimC6EnvW
        { document_url := some "http://example.com/a.pdf" }).2.created = ["/tmp/tmp0.pdf"]) ∧
    ((dd_process_document claimC6EnvW
        { document_url := some "http://example.com/a.pdf" }).2.unlinked = ([] : List String)) ∧
    ((dd_process_document claimC6EnvW
        { document_url := some "http://example.com/a.pdf" }).1.success = false) := by
  refine ⟨by decide, by decide, by decide⟩

/-- Claim C6 (amended): the docling byte path does delete its temporary
file on every exit path (conversion success or failure alike), but the
deepdoctection wrapper deletes its downloaded temporary file only on the
successful-analysis path (and only when the path begins with `/tmp/`); when
the analyzer raises, nothing is unlinked and the created temporary file
survives the invocation. -/
theorem claimC6_amended :
    (∀ (env : DoclingEnv) (bs : List Nat) (options : DocOptions),
       (docling_process_from_bytes env bs options).2.created =
         (docling_process_from_bytes env bs options).2.unlinked) ∧
    (∀ (env : DDEnv) (config : DDConfig) (path : String) (created : List String) (m : String),
       env.available = true →
       dd_download_document env (config.document_url.getD "") = .ok (path, created) →
       env.createAnalyzerRaisesImport = false →
       env.analyze path = .raiseMsg m →
       config.document_url.getD "" ≠ "" →
       (dd_process_document env config).2.created = created ∧
       (dd_process_document env config).2.unlinked = []) ∧
    (∀ (env : DDEnv) (config : DDConfig) (path : String) (created : List String)
       (ps : List DDRawPage),
       env.available = true →
       dd_download_document env (config.document_url.getD "") = .ok (path, created) →
       env.createAnalyzerRaisesImport = false →
       env.analyze path = .pages ps →
       config.document_url.getD "" ≠ "" →
       (dd_process_document env config).2.unlinked =
         (if pyStartsWith path "/tmp/" then [path] else [])) := by
  refine ⟨?_, ?_, ?_⟩
  · intro env bs options
    unfold docling_process_from_bytes
    cases hc : env.convert (env.mkTemp (docling_get_file_suffix options)) bs <;> simp [hc]
  · intro env config path created m ha hdl hai han hu
    unfold dd_process_document
    simp [ha, hdl, hai, han, hu]
  · intro env config path created ps ha hdl hai han hu
    unfold dd_process_document
    simp [ha, hdl, hai, han, hu]

def claimC6EnvW2 : DDEnv :=
  { available := true, httpGet30 := fun _ => .ok {}, analyze := fun _ => .pages [] }

/-- Witness for C6: the successful-analysis clause applied to a concrete
download. -/
theorem claimC6_witness :
    (dd_process_document claimC6EnvW2 { document_url := some "http://h/x.pdf" }).2.unlinked =
      (if pyStartsWith "/tmp/tmp0.pdf" "/tmp/" then ["/tmp/tmp0.pdf"] else []) :=
  claimC6_amended.2.2 claimC6EnvW2 { document_url := some "http://h/x.pdf" }
    "/tmp/tmp0.pdf" ["/tmp/tmp0.pdf"] [] rfl rfl rfl rfl (by decide)

def claimC10EnvW : DDEnv := { available := true, analyze := fun _ => .pages [] }

/-- Counterexample to C10 as stated: a caller-supplied local path that
itself begins with `/tmp/` is returned unchanged by input resolution (no
temporary file is created) and is then unlinked by the cleanup step — the
caller's own file is deleted. -/
theorem claimC10_counterexample :
    ((dd_process_document claimC10EnvW { document_url := some "/tmp/mine.pdf" }).2.created =
       ([] : List String)) ∧
    ((dd_process_document claimC10EnvW { document_url := some "/tmp/mine.pdf" }).2.unlinked =
       ["/tmp/mine.pdf"]) ∧
    ((dd_process_document claimC10EnvW { document_url := some "/tmp/mine.pdf" }).1.success =
       true) := by
  refine ⟨by decide, by decide, by decide⟩

/-- Claim C10 (amended): a reference that does not start with `http` is
returned unchanged by `_download_document` with no temporary file created,
and the cleanup step unlinks exactly the paths beginning with `/tmp/` — so a
caller-supplied file is deleted if and only if its own path begins with
`/tmp/`. -/
theorem claimC10_amended :
    (∀ (env : DDEnv) (url : String), pyStartsWith url "http" = false →
       dd_download_document env url = .ok (url, [])) ∧
    (∀ (env : DDEnv) (config : DDConfig) (p : String),
       p ∈ (dd_process_document env config).2.unlinked → pyStartsWith p "/tmp/" = true) := by
  constructor
  · intro env url h
    unfold dd_download_document
    simp [h]
  · intro env config p hp
    unfold dd_process_document at hp
    cases hav : env.available
    · simp [hav, DDLog.unlinked] at hp
    · simp only [hav] at hp
      by_cases hu : config.document_url.getD "" = ""
      · simp [hu, DDLog.unlinked] at hp
      · simp only [hu] at hp
        rcases hdl : dd_download_document env (config.document_url.getD "") with e | pc
        · simp [hdl, DDLog.unlinked] at hp
        · obtain ⟨path, created⟩ := pc
          simp only [hdl] at hp
          cases hai : env.createAnalyzerRaisesImport
          · simp only [hai] at hp
            cases han : env.analyze path
            · simp only [han] at hp
              cases hst : pyStartsWith path "/tmp/"
              · simp [hst, DDLog.unlinked] at hp
              · simp [hst, DDLog.unlinked] at hp
                rw [hp]
                exact hst
            · simp [han, DDLog.unlinked] at hp
          · simp [hai, DDLog.unlinked] at hp

/-- Witness for C10: the unchanged-path clause applied to a concrete
relative path. -/
theorem claimC10_witness :
    dd_download_document claimC10EnvW "papers/local.pdf" = .ok ("papers/local.pdf", []) :=
  claimC10_amended.1 claimC10EnvW "papers/local.pdf" (by decide)

def claimC1RawW : CrRaw := { success := some false, error_message := some "net::ERR timeout" }

/-- Counterexample to C1 as stated: the crawl4ai normalizer passes a
backend `success=False` through and the resulting dictionary has no `error`
key at all — `success=false` without a present, non-empty `error`. -/
theorem claimC1_counterexample :
    ((cr_process_result ambW claimC1RawW {}).success = false) ∧
    ((cr_process_result ambW claimC1RawW {}).error = none) := ⟨rfl, rfl⟩

/-- Claim C1 (amended): results built by the deepdoctection and docling
wrappers do satisfy "`success=false` implies a non-empty `error`"; but the
crawl4ai normalizer passes the backend's `success=false` through with no
`error` field, and the deepdoctection fallback emits `success=true` while
carrying its degraded note in the `error` field rather than in metadata. -/
theorem claimC1_amended :
    (∀ (env : DDEnv) (config : DDConfig),
       (dd_process_document env config).1.success = false →
       (dd_process_document env config).1.error.getD "" ≠ "") ∧
    (∀ (amb : Amb) (env : DoclingEnv) (config : DoclingConfig),
       (docling_process_document amb env config).1.success = false →
       (docling_process_document amb env config).1.error.getD "" ≠ "") ∧
    (∀ (env : DDEnv) (config : DDConfig), env.available = false →
       (dd_process_document env config).1.success = true ∧
       (dd_process_document env config).1.error = some (dd_unavailable_note env)) ∧
    (∀ (amb : Amb) (raw : CrRaw) (config : CrConfig), raw.success = some false →
       (cr_process_result amb raw config).success = false ∧
       (cr_process_result amb raw config).error = none) := by
  refine ⟨?_, ?_, ?_, ?_⟩
  · intro env config
    unfold dd_process_document
    cases hav : env.available
    · simp [hav, dd_fallback_success]
    · by_cases hu : config.document_url.getD "" = ""
      · simp [hav, hu]
      · rcases hdl : dd_download_document env (config.document_url.getD "") with e | pc
        · simp [hav, hu, hdl]
          exact prefixed_ne_empty _ _ (by decide)
        · obtain ⟨path, created⟩ := pc
          cases hai : env.createAnalyzerRaisesImport
          · cases han : env.analyze path
            · simp [hav, hu, hdl, hai, han, dd_build_result_success]
            · simp [hav, hu, hdl, hai, han]
              exact prefixed_ne_empty _ _ (by decide)
          · simp [hav, hu, hdl, hai, dd_fallback_success]
  · intro amb env config
    unfold docling_process_document
    cases hav : env.available
    · simp [hav]
      exact prefixed_ne_empty _ _ (by decide)
    · simp only [hav]
      cases hdt : docling_data_truthy config.document_data
      · cases hut : strTruthy (config.document_url.getD "")
        · simp [hdt, hut]
        · simp [hdt, hut]
          rcases hst : docling_process_from_url env (config.document_url.getD "")
              config.options with ⟨res, log⟩
          rcases res with e | convres
          · simp [docling_mock_success]
          · unfold docling_process_result
            rcases hdoc : convres.document with e | doc
            · simp [hdoc]
              exact prefixed_ne_empty _ _ (by decide)
            · simp [hdoc]
      · simp [hdt]
        rcases hst : docling_process_from_bytes env
            (docling_inline_bytes env (config.document_data.getD (.str "")))
            config.options with ⟨res, log⟩
        rcases res with e | convres
        · simp [docling_mock_success]
        · unfold docling_process_result
          rcases hdoc : convres.document with e | doc
          · simp [hdoc]
            exact prefixed_ne_empty _ _ (by decide)
          · simp [hdoc]
  · intro env config hav
    unfold dd_process_document
    simp [hav, dd_fallback_success, dd_fallback_error]
  · intro amb raw config h
    unfold cr_process_result
    simp [h]

/-- Witness for C1: the deepdoctection clause applied to a concrete failing
request (missing reference with the backend available). -/
theorem claimC1_witness :
    (dd_process_document ddEnvAvail { document_url := none }).1.error.getD "" ≠ "" :=
  claimC1_amended.1 ddEnvAvail { document_url := none } (by decide)

def claimC2EnvW : DoclingEnv := { available := true, convert := fun _ _ => .error "boom" }

def claimC2CfgW : DoclingConfig := { document_data := some (.bytes [1, 2, 3]) }

/-- Counterexample to C2 as stated: a failure deep in the docling wrapper
(the converter raising) does not terminate in a `success=false` result — the
exception handler fabricates a `success=true` mock result, with the cause
relegated to `processing_error`. -/
theorem claimC2_counterexample :
    ((docling_process_document ambW claimC2EnvW claimC2CfgW).1.success = true) ∧
    ((docling_process_document ambW claimC2EnvW claimC2CfgW).1.processing_error =
       some "boom") ∧
    ((docling_process_document ambW claimC2EnvW claimC2CfgW).1.mock = true) :=
  ⟨rfl, rfl, rfl⟩

/-- Claim C2 (amended): the entry points let no exception propagate — for
every environment, argument vector and parse outcome each `main` prints
exactly one result object; a configuration parse exception prints a
`success=false` result carrying the diagnostic and exits with status 1,
while a missing argument prints its `success=false` result and exits
normally with status 0 (the failure dictionary is built inside the `try`
and no exception is raised).  Deeper failure paths, moreover, may terminate
in `success=true` mock results (docling's processing-failure handler, the
deepdoctection fallback) rather than `success=false`. -/
theorem claimC2_amended :
    (∀ (env : DDEnv) (argv : List String) (parse : String → Except String DDConfig),
       (dd_main env argv parse).printed.length = 1) ∧
    (∀ (amb : Amb) (env : CrEnv) (argv : List String)
       (parse : String → Except String CrConfig),
       (cr_main amb env argv parse).printed.length = 1) ∧
    (∀ (amb : Amb) (env : DoclingEnv) (argv : List String)
       (parse : String → Except String DoclingConfig),
       (docling_main amb env argv parse).printed.length = 1) ∧
    (∀ (env : DDEnv) (parse : String → Except String DDConfig) (a0 s e : String)
       (rest : List String),
       parse s = .error e →
       (dd_main env (a0 :: s :: rest) parse).printed =
         [{ success := false, error := some e }] ∧
       (dd_main env (a0 :: s :: rest) parse).exitCode = 1) ∧
    (∀ (env : DDEnv) (parse : String → Except String DDConfig),
       (dd_main env [] parse).printed =
         [{ success := false, error := some "Configuration argument required" }] ∧
       (dd_main env [] parse).exitCode = 0) := by
  refine ⟨?_, ?_, ?_, ?_, ?_⟩
  · intro env argv parse
    rcases argv with _ | ⟨a, _ | ⟨b, t⟩⟩
    · rfl
    · rfl
    · cases hp : parse b <;> simp [dd_main, hp]
  · intro amb env argv parse
    rcases argv with _ | ⟨a, _ | ⟨b, t⟩⟩
    · rfl
    · rfl
    · cases hp : parse b <;> simp [cr_main, hp]
  · intro amb env argv parse
    rcases argv with _ | ⟨a, _ | ⟨b, t⟩⟩
    · rfl
    · rfl
    · cases hp : parse b <;> simp [docling_main, hp]
  · intro env parse a0 s e rest hp
    constructor <;> simp [dd_main, hp]
  · intro env parse
    exact ⟨rfl, rfl⟩

def claimC2ParseW : String → Except String DDConfig :=
  fun _ => .error "Expecting value: line 1 column 1 (char 0)"

/-- Witness for C2: a concrete unparsable configuration prints exactly the
diagnostic failure result. -/
theorem claimC2_witness :
    (dd_main ddEnvAvail ["wrapper.py", "not json"] claimC2ParseW).printed =
      [{ success := false, error := some "Expecting value: line 1 column 1 (char 0)" }] :=
  (claimC2_amended.2.2.2.1 ddEnvAvail claimC2ParseW "wrapper.py" "not json"
    "Expecting value: line 1 column 1 (char 0)" [] rfl).1

def claimC8DocW : DoclingDoc := { export_to_markdown := some "hello world" }

def claimC8EnvW : DoclingEnv :=
  { available := true,
    b64decode := fun _ => none,
    convert := fun _ _ => .ok { document := .ok claimC8DocW } }

def claimC8CfgW : DoclingConfig := { document_data := some (.str "!!not-base64!!") }

/-- Counterexample to C8 as stated: inline content whose base64 decoding
fails does not make the request fail with an input error — the wrapper
reinterprets it as raw UTF-8 text and continues, here all the way to a
`success=true` result with no error. -/
theorem claimC8_counterexample :
    (claimC8EnvW.b64decode "!!not-base64!!" = none) ∧
    ((docling_process_document ambW claimC8EnvW claimC8CfgW).1.success = true) ∧
    ((docling_process_document ambW claimC8EnvW claimC8CfgW).1.error = none) :=
  ⟨rfl, rfl, rfl⟩

/-- Claim C8 (amended): undecodable inline content is not fatal — when the
base64 decode raises, the wrapper falls back to the raw UTF-8 encoding of
the string and processing proceeds exactly as it would on those bytes; no
input-error result is produced for undecodable inline content. -/
theorem claimC8_amended :
    (∀ (env : DoclingEnv) (s : String), env.b64decode s = none →
       docling_inline_bytes env (.str s) = utf8Bytes s) ∧
    (∀ (amb : Amb) (env : DoclingEnv) (config : DoclingConfig) (s : String),
       config.document_data = some (.str s) → strTruthy s = true →
       env.b64decode s = none →
       docling_process_document amb env config =
         (if env.available = false then
            ({ success := false,
               error := some ("Docling not available: " ++ env.importError),
               mock := true }, {})
          else
            match docling_process_from_bytes env (utf8Bytes s) config.options with
            | (.ok convres, log) => (docling_process_result amb convres config.options, log)
            | (.error e, log) => (docling_mock_result amb e, log))) := by
  constructor
  · intro env s h
    simp [docling_inline_bytes, h]
  · intro amb env config s hdata hs hdec
    unfold docling_process_document
    rw [hdata]
    cases hav : env.available
    · simp [hav]
    · simp [hav, docling_data_truthy, hs, docling_inline_bytes, hdec]

/-- Witness for C8: the decode-fallback clause applied to a concrete
undecodable string. -/
theorem claimC8_witness :
    docling_inline_bytes claimC8EnvW (.str "@@") = utf8Bytes "@@" :=
  claimC8_amended.1 claimC8EnvW "@@" rfl
